import Mathlib

/-!
Shallow embedding of `src/modules/todoReminderManager.js` (the todo-reminder
popup manager of VCPChat) together with a model of the spec's HistoryLedger
(which has no implementation under `src/`).

Conventions of the embedding:
* JS string fields use `String`, with `""` standing for a missing
  (`undefined`/`null`) or empty value; both are falsy in JS and the code never
  distinguishes them on these fields.
* JS numeric timestamp fields use `Nat` (milliseconds), with `0` falsy.
* Object- and array-valued fields that the code tests for presence use
  `Option`.
* DOM side effects (appending the popup element, `Map.set` on
  `activeReminders`, `playSound`) are modelled as an explicit effect trace.
* HTML template strings are modelled as lists of fragments: literal template
  text, interpolations routed through `escapeHtml`, and raw interpolations.
  Whitespace inside template literals is normalised away; the interpolation
  structure is kept exactly as in the source.
-/

namespace TodoReminder

/-- JS `a || b` for text fields (`""` models a missing or empty value). -/
def orS (a b : String) : String := if a = "" then b else a

/-- JS `a || b` for numeric fields (`0` is falsy in JS). -/
def orN (a b : Nat) : Nat := if a = 0 then b else a

/-- A sub-item carried in `data.items` of an inbound payload.  The code reads
`title`, `content`, `message`, `priority` and `scheduledTime`; `completed` and
`deadline` may be carried on the wire but are never read by the code. -/
structure Item where
  title : String := ""
  content : String := ""
  message : String := ""
  priority : String := ""
  scheduledTime : Nat := 0
  completed : Bool := false
  deadline : Option Nat := none
  deriving Repr, DecidableEq

/-- The `summary` sub-object of a daily-summary payload. `0` models a missing
count, matching JS falsiness of `0` and `undefined` under `||`. -/
structure SummaryPayload where
  total : Nat := 0
  completed : Nat := 0
  pending : Nat := 0
  overdue : Nat := 0
  deriving Repr, DecidableEq

/-- An inbound reminder payload as read by `handleTodoReminder` and the three
`show*` functions.  `description` can be present on the wire (the spec's
content-fallback chain mentions it) but is never read by the code. -/
structure Payload where
  type : String := ""
  reminderType : String := ""
  priority : String := ""
  title : String := ""
  content : String := ""
  message : String := ""
  description : String := ""
  scheduledTime : Nat := 0
  timestamp : Nat := 0
  tags : Option (List String) := none
  agentName : String := ""
  todoId : String := ""
  summary : Option SummaryPayload := none
  items : Option (List Item) := none
  deriving Repr, DecidableEq

/-- The computed `summary` passed to `createReminderElement` by
`showDailySummary`. -/
structure SummaryCfg where
  total : Nat
  completed : Nat
  pending : Nat
  overdue : Nat
  deriving Repr, DecidableEq

/-- The config object passed to `createReminderElement`. -/
structure ReminderConfig where
  type : String
  priority : String
  title : String
  content : String := ""
  time : Nat := 0
  tags : List String := []
  summary : Option SummaryCfg := none
  items : Option (List Item) := none
  agentName : String := ""
  todoId : String := ""
  deriving Repr, DecidableEq

/-- `showOverdueAlert` falls back to `[data]` when the payload carries no
`items`: the payload itself is used as the single overdue item. -/
def Payload.asItem (d : Payload) : Item :=
  { title := d.title
    content := d.content
    message := d.message
    priority := d.priority
    scheduledTime := d.scheduledTime }

/-- The config built by `showNormalReminder` (source lines 61-74). -/
def normalConfig (d : Payload) : ReminderConfig :=
  { type := "normal"
    priority := orS d.priority "normal"
    title := orS d.title "待办提醒"
    content := orS d.content d.message
    time := orN d.scheduledTime d.timestamp
    tags := d.tags.getD []
    agentName := d.agentName
    todoId := d.todoId }

/-- The config built by `showOverdueAlert` (source lines 79-95): priority is
the literal `'high'`, content summarises the batch when it has more than one
item. -/
def overdueConfig (d : Payload) : ReminderConfig :=
  let overdueItems := d.items.getD [d.asItem]
  { type := "overdue"
    priority := "high"
    title := "⚠️ 待办逾期提醒"
    content :=
      if 1 < overdueItems.length then
        "您有 " ++ Nat.repr overdueItems.length ++ " 个待办事项已逾期"
      else
        match overdueItems.head? with
        | some it => orS it.content it.message
        | none => ""
    items := some overdueItems
    agentName := d.agentName
    todoId := d.todoId }

/-- The config built by `showDailySummary` (source lines 100-120): priority is
the literal `'normal'`, and every summary count is taken from the payload
`summary` object with JS `||` defaults. -/
def dailySummaryConfig (d : Payload) : ReminderConfig :=
  let summaryData := d.summary.getD {}
  let items := d.items.getD []
  { type := "daily_summary"
    priority := "normal"
    title := "📋 今日待办汇总"
    summary := some
      { total := orN summaryData.total items.length
        completed := orN summaryData.completed 0
        pending := orN summaryData.pending items.length
        overdue := orN summaryData.overdue 0 }
    items := some items
    agentName := d.agentName
    todoId := d.todoId }

/-- Observable side effects of `handleTodoReminder`, in emission order:
appending the popup element to the container (`render`), inserting into the
`activeReminders` map (`storeInsert`), calling `playSound` (`sound`), and the
`console.warn` on an unknown reminder type (`warn`). -/
inductive Effect where
  | render (cfg : ReminderConfig)
  | storeInsert (key : String)
  | sound (priority : String)
  | warn
  deriving Repr, DecidableEq

def Effect.isRender : Effect → Bool
  | .render _ => true
  | _ => false

def Effect.isStoreInsert : Effect → Bool
  | .storeInsert _ => true
  | _ => false

def Effect.isSound : Effect → Bool
  | .sound _ => true
  | _ => false

/-- The `activeReminders` map: keys to the stored `{element, data}` records,
of which we keep the `data` payload. -/
abbrev Store := List (String × Payload)

/-- JS `Map.set`: replaces the value at an existing key, otherwise appends. -/
def mapSet (m : Store) (k : String) (v : Payload) : Store :=
  if m.any (fun p => p.1 = k) then
    m.map (fun p => if p.1 = k then (k, v) else p)
  else m ++ [(k, v)]

/-- `displayReminder` (source lines 292-316): appends the element to the
container, then stores it under `data.todoId || Date.now()` in
`activeReminders`. -/
def displayReminder (cfg : ReminderConfig) (d : Payload) (store : Store)
    (now : Nat) : List Effect × Store :=
  let key := orS d.todoId (Nat.repr now)
  ([Effect.render cfg, Effect.storeInsert key], mapSet store key d)

/-- `handleTodoReminder` (source lines 34-56): bails out on a falsy payload or
a `type` other than `'TODO_REMINDER'`, dispatches on `reminderType`
(`daily_summary` / `overdue` / `normal`, warning on anything else), and then
plays one sound with `data.priority || 'normal'`. -/
def handleTodoReminder (data : Option Payload) (store : Store) (now : Nat) :
    List Effect × Store :=
  match data with
  | none => ([], store)
  | some d =>
    if d.type ≠ "TODO_REMINDER" then ([], store)
    else
      let dispatched :=
        if d.reminderType = "daily_summary" then
          displayReminder (dailySummaryConfig d) d store now
        else if d.reminderType = "overdue" then
          displayReminder (overdueConfig d) d store now
        else if d.reminderType = "normal" then
          displayReminder (normalConfig d) d store now
        else ([Effect.warn], store)
      (dispatched.1 ++ [Effect.sound (orS d.priority "normal")], dispatched.2)

/-- The overdue-count derivation the spec claims for daily summaries: among
items not marked completed, an item with no deadline counts as overdue, as
does any item whose deadline is strictly before now.  (Stated from the spec
for comparison; the code does not compute this.) -/
def specOverdueCount (now : Nat) (items : List Item) : Nat :=
  (items.filter fun it =>
    !it.completed &&
      (match it.deadline with
       | none => true
       | some dl => decide (dl < now))).length

/-- The content-fallback chain as the spec states it: the first non-empty
value among content, description, free text (`message`), title.  (Stated from
the spec for comparison; the code only falls back from content to message.) -/
def specContentChain (d : Payload) : String :=
  orS d.content (orS d.description (orS d.message d.title))

/-- The overdue count a daily-summary popup displays. -/
def shownOverdue (cfg : ReminderConfig) : Nat :=
  match cfg.summary with
  | some s => s.overdue
  | none => 0

/-- One piece of a built HTML template string: literal template text, an
interpolation routed through `this.escapeHtml(...)`, or a raw interpolation
(`${...}` without escaping). -/
inductive Frag where
  | lit (s : String)
  | esc (s : String)
  | raw (s : String)
  deriving Repr, DecidableEq

/-- One character of `escapeHtml`: the browser `div.textContent`
round-trip escapes `&`, `<` and `>`. -/
def escapeChar (c : Char) : String :=
  if c = '&' then "&amp;"
  else if c = '<' then "&lt;"
  else if c = '>' then "&gt;"
  else String.singleton c

def escapeChars : List Char → String
  | [] => ""
  | c :: cs => escapeChar c ++ escapeChars cs

/-- `escapeHtml` (source lines 505-510): falsy input (missing or empty text)
becomes `''`; otherwise the text is HTML-escaped. -/
def escapeHtml (text : String) : String :=
  if text = "" then "" else escapeChars text.data

def Frag.str : Frag → String
  | .lit s => s
  | .esc s => escapeHtml s
  | .raw s => s

/-- Flatten a fragment list into the HTML string it builds. -/
def fragsStr : List Frag → String
  | [] => ""
  | f :: fs => f.str ++ fragsStr fs

/-- `getPriorityIcon` (source lines 451-462). -/
def getPriorityIcon (priority : String) : String :=
  if priority = "high" then "🔴"
  else if priority = "medium" then "🟡"
  else if priority = "low" then "🟢"
  else "🔵"

/-- Two-digit zero padding, the `toString().padStart(2, '0')` of the source
(hours and minutes are below 60, so one pad character suffices). -/
def pad2 (n : Nat) : String :=
  if n < 10 then "0" ++ Nat.repr n else Nat.repr n

/-- Local-time milliseconds of a timestamp: the ambient JS `Date` methods use
the local timezone, made explicit here as an offset in minutes east of UTC. -/
def localMs (tzMin : Int) (t : Nat) : Int := (t : Int) + tzMin * 60000

/-- `date.getHours()` for a millisecond timestamp. -/
def getHours (tzMin : Int) (t : Nat) : Nat :=
  (((localMs tzMin t).fdiv 3600000) % 24).toNat

/-- `date.getMinutes()` for a millisecond timestamp. -/
def getMinutes (tzMin : Int) (t : Nat) : Nat :=
  (((localMs tzMin t).fdiv 60000) % 60).toNat

/-- Civil month and day-of-month from a count of days since the Unix epoch
(the standard era-based Gregorian conversion used by `Date`). -/
def civilMonthDay (z : Int) : Nat × Nat :=
  let days := z + 719468
  let era := (if 0 ≤ days then days else days - 146096) / 146097
  let doe := (days - era * 146097).toNat
  let yoe := (doe - doe / 1460 + doe / 36524 - doe / 146096) / 365
  let doy := doe - (365 * yoe + yoe / 4 - yoe / 100)
  let mp := (5 * doy + 2) / 153
  let dom := doy - (153 * mp + 2) / 5 + 1
  let m := if mp < 10 then mp + 3 else mp - 9
  (m, dom)

/-- `date.getMonth() + 1` for a millisecond timestamp. -/
def getMonth1 (tzMin : Int) (t : Nat) : Nat :=
  (civilMonthDay ((localMs tzMin t).fdiv 86400000)).1

/-- `date.getDate()` for a millisecond timestamp. -/
def getDate (tzMin : Int) (t : Nat) : Nat :=
  (civilMonthDay ((localMs tzMin t).fdiv 86400000)).2

/-- `formatTime` (source lines 467-500), with the wall clock `now` and the
local timezone offset `tzMin` passed explicitly. -/
def formatTime (now : Nat) (tzMin : Int) (timestamp : Nat) : String :=
  if (timestamp : Int) - (now : Int) < 0 then
    if now - timestamp < 60000 then "刚才"
    else if now - timestamp < 3600000 then
      Nat.repr ((now - timestamp) / 60000) ++ " 分钟前"
    else if now - timestamp < 86400000 then
      Nat.repr ((now - timestamp) / 3600000) ++ " 小时前"
    else Nat.repr ((now - timestamp) / 86400000) ++ " 天前"
  else
    if timestamp - now < 60000 then "马上"
    else if timestamp - now < 3600000 then
      Nat.repr ((timestamp - now) / 60000) ++ " 分钟后"
    else if timestamp - now < 86400000 then
      "今天 " ++ pad2 (getHours tzMin timestamp) ++ ":" ++
        pad2 (getMinutes tzMin timestamp)
    else if timestamp - now < 172800000 then
      "明天 " ++ pad2 (getHours tzMin timestamp) ++ ":" ++
        pad2 (getMinutes tzMin timestamp)
    else
      Nat.repr (getMonth1 tzMin timestamp) ++ "月" ++
        Nat.repr (getDate tzMin timestamp) ++ "日 " ++
        pad2 (getHours tzMin timestamp) ++ ":" ++
        pad2 (getMinutes tzMin timestamp)

/-- The popup header template of `createReminderElement` (source lines
148-158): the priority icon is interpolated raw, the title through
`escapeHtml`. -/
def headerFrags (priority title : String) : List Frag :=
  [ Frag.lit "<div class=\"todo-reminder-header\"><div class=\"todo-reminder-title\"><span class=\"priority-icon\">",
    Frag.raw (getPriorityIcon priority),
    Frag.lit "</span><span class=\"title-text\">",
    Frag.esc title,
    Frag.lit "</span></div><button class=\"todo-reminder-close\" onclick=\"todoReminderManager.closeReminder(this)\"><svg viewBox=\"0 0 24 24\" width=\"18\" height=\"18\" fill=\"none\" stroke=\"currentColor\" stroke-width=\"2\"><path d=\"M18 6L6 18M6 6l12 12\"/></svg></button></div>" ]

/-- `renderNormalContent` (source lines 259-287): the content paragraph when
content is non-empty, the time block when a time is set, and one escaped span
per tag when there are tags. -/
def renderNormalContentFrags (now : Nat) (tzMin : Int) (content : String)
    (time : Nat) (tags : List String) : List Frag :=
  (if content ≠ "" then
    [ Frag.lit "<p class=\"todo-content\">", Frag.esc content,
      Frag.lit "</p>" ]
   else []) ++
  (if time ≠ 0 then
    [ Frag.lit "<div class=\"todo-time\"><svg viewBox=\"0 0 24 24\" width=\"14\" height=\"14\" fill=\"none\" stroke=\"currentColor\" stroke-width=\"2\"><circle cx=\"12\" cy=\"12\" r=\"10\"/><path d=\"M12 6v6l4 2\"/></svg><span>",
      Frag.raw (formatTime now tzMin time),
      Frag.lit "</span></div>" ]
   else []) ++
  (if tags ≠ [] then
    [ Frag.lit "<div class=\"todo-tags\">" ] ++
    tags.flatMap (fun tag =>
      [ Frag.lit "<span class=\"todo-tag\">", Frag.esc tag,
        Frag.lit "</span>" ]) ++
    [ Frag.lit "</div>" ]
   else [])

/-- The opening literal of one rendered daily-summary item; note the item's
priority string follows it as a raw (unescaped) interpolation inside the
`class` attribute. -/
def summaryItemOpen : String :=
  "<div class=\"summary-item\"><span class=\"item-priority priority-"

/-- The opening literal of the daily-summary truncation line. -/
def summaryMoreOpen : String := "<div class=\"summary-item-more\">还有 "

/-- One item of `renderDailySummary`'s sample list (source lines 216-223). -/
def summaryItemFrags (item : Item) : List Frag :=
  [ Frag.lit summaryItemOpen,
    Frag.raw (orS item.priority "normal"),
    Frag.lit "\">",
    Frag.raw (getPriorityIcon item.priority),
    Frag.lit "</span><span class=\"item-content\">",
    Frag.esc (orS item.content (orS item.message item.title)),
    Frag.lit "</span></div>" ]

/-- The stats block of `renderDailySummary` (source lines 191-212): total,
completed and pending counts, and the overdue stat only when positive. -/
def summaryStatsFrags (summary : SummaryCfg) : List Frag :=
  [ Frag.lit "<div class=\"summary-stats\"><div class=\"stat-item\"><span class=\"stat-label\">总计</span><span class=\"stat-value\">",
    Frag.raw (Nat.repr summary.total),
    Frag.lit "</span></div><div class=\"stat-item\"><span class=\"stat-label\">已完成</span><span class=\"stat-value completed\">",
    Frag.raw (Nat.repr summary.completed),
    Frag.lit "</span></div><div class=\"stat-item\"><span class=\"stat-label\">待办</span><span class=\"stat-value pending\">",
    Frag.raw (Nat.repr summary.pending),
    Frag.lit "</span></div>" ] ++
  (if 0 < summary.overdue then
    [ Frag.lit "<div class=\"stat-item\"><span class=\"stat-label\">逾期</span><span class=\"stat-value overdue\">",
      Frag.raw (Nat.repr summary.overdue),
      Frag.lit "</span></div>" ]
   else []) ++
  [ Frag.lit "</div>" ]

/-- The items block of `renderDailySummary` (source lines 214-228): the first
five items and a truncation line when more than five. -/
def summaryItemsSectionFrags (items : List Item) : List Frag :=
  if items ≠ [] then
    [ Frag.lit "<div class=\"summary-items-list\">" ] ++
    (items.take 5).flatMap summaryItemFrags ++
    (if 5 < items.length then
      [ Frag.lit summaryMoreOpen,
        Frag.raw (Nat.repr (items.length - 5)),
        Frag.lit " 项...</div>" ]
     else []) ++
    [ Frag.lit "</div>" ]
  else []

/-- `renderDailySummary` (source lines 190-231). -/
def renderDailySummaryFrags (summary : SummaryCfg) (items : List Item) :
    List Frag :=
  summaryStatsFrags summary ++ summaryItemsSectionFrags items

/-- The opening literal of one rendered overdue item. -/
def overdueItemOpen : String :=
  "<div class=\"overdue-item\"><div class=\"overdue-item-header\"><span class=\"overdue-item-title\">"

/-- The opening literal of the overdue truncation line. -/
def overdueMoreOpen : String := "<div class=\"overdue-item-more\">还有 "

/-- One item of `renderOverdueList` (source lines 239-247). -/
def overdueItemFrags (now : Nat) (tzMin : Int) (item : Item) : List Frag :=
  [ Frag.lit overdueItemOpen,
    Frag.esc (orS item.title (orS item.content item.message)),
    Frag.lit "</span>" ] ++
  (if item.scheduledTime ≠ 0 then
    [ Frag.lit "<span class=\"overdue-time\">应于 ",
      Frag.raw (formatTime now tzMin item.scheduledTime),
      Frag.lit " 完成</span>" ]
   else []) ++
  [ Frag.lit "</div>" ] ++
  (if item.content ≠ "" && item.title != item.content then
    [ Frag.lit "<p class=\"overdue-item-content\">", Frag.esc item.content,
      Frag.lit "</p>" ]
   else []) ++
  [ Frag.lit "</div>" ]

/-- `renderOverdueList` (source lines 236-254): the first three items and a
truncation line when more than three. -/
def renderOverdueListFrags (now : Nat) (tzMin : Int) (items : List Item) :
    List Frag :=
  [ Frag.lit "<div class=\"overdue-items-list\">" ] ++
  (items.take 3).flatMap (overdueItemFrags now tzMin) ++
  (if 3 < items.length then
    [ Frag.lit overdueMoreOpen,
      Frag.raw (Nat.repr (items.length - 3)),
      Frag.lit " 项逾期...</div>" ]
   else []) ++
  [ Frag.lit "</div>" ]

/-- The body dispatch of `createReminderElement` (source lines 159-171):
daily-summary rendering when the type is `daily_summary` and a summary is
present, the overdue list when the type is `overdue` with more than one item,
otherwise the normal content. -/
def bodyFrags (now : Nat) (tzMin : Int) (cfg : ReminderConfig) : List Frag :=
  [ Frag.lit "<div class=\"todo-reminder-body\">" ] ++
  (if cfg.type = "daily_summary" then
    match cfg.summary with
    | some s => renderDailySummaryFrags s (cfg.items.getD [])
    | none => renderNormalContentFrags now tzMin cfg.content cfg.time cfg.tags
   else if cfg.type = "overdue" then
    match cfg.items with
    | some its =>
      if 1 < its.length then renderOverdueListFrags now tzMin its
      else renderNormalContentFrags now tzMin cfg.content cfg.time cfg.tags
    | none => renderNormalContentFrags now tzMin cfg.content cfg.time cfg.tags
   else renderNormalContentFrags now tzMin cfg.content cfg.time cfg.tags) ++
  [ Frag.lit "</div>" ]

/-- The actions block of `createReminderElement` (source lines 174-181): the
agent badge (escaped) when an agent name is present, and three buttons whose
`onclick` attributes interpolate the raw todo id. -/
def actionsFrags (agentName todoId : String) : List Frag :=
  [ Frag.lit "<div class=\"todo-reminder-actions\">" ] ++
  (if agentName ≠ "" then
    [ Frag.lit "<span class=\"todo-agent-badge\">", Frag.esc agentName,
      Frag.lit "</span>" ]
   else []) ++
  [ Frag.lit "<button class=\"todo-action-btn btn-view\" onclick=\"todoReminderManager.viewTodo(\x27",
    Frag.raw todoId,
    Frag.lit "\x27)\">查看详情</button><button class=\"todo-action-btn btn-dismiss\" onclick=\"todoReminderManager.dismissReminder(\x27",
    Frag.raw todoId,
    Frag.lit "\x27)\">稍后提醒</button><button class=\"todo-action-btn btn-complete\" onclick=\"todoReminderManager.completeTodo(\x27",
    Frag.raw todoId,
    Frag.lit "\x27)\">标记完成</button></div>" ]

/-- The full inner HTML `createReminderElement` assigns to the popup element. -/
def createReminderFrags (now : Nat) (tzMin : Int) (cfg : ReminderConfig) :
    List Frag :=
  headerFrags cfg.priority cfg.title ++ bodyFrags now tzMin cfg ++
    actionsFrags cfg.agentName cfg.todoId

/-- The history ledger's cap of 1000 entries. -/
def historyCap : Nat := 1000

/-- An entry of the history ledger. -/
structure HistoryEntry where
  action : String := ""
  reminderId : String := ""
  timestamp : Nat := 0
  deriving Repr, DecidableEq

/-- Modelled from the spec: the HistoryLedger component of §4.5 has no
implementation under `src/` (only this popup manager is present).  Per the
spec, `append` adds the entry and, whenever the size exceeds 1000, retains
only the 1000 most-recent entries by timestamp before persisting. -/
def historyAppend (ledger : List HistoryEntry) (e : HistoryEntry) :
    List HistoryEntry :=
  let l := ledger ++ [e]
  if historyCap < l.length then
    (l.mergeSort fun a b => decide (a.timestamp ≤ b.timestamp)).drop
      (l.length - historyCap)
  else l

/-- A sequence of appends into an initially empty ledger. -/
def historyAppendAll (es : List HistoryEntry) : List HistoryEntry :=
  es.foldl historyAppend []

/-! Concrete payloads used by witnesses and counterexamples. -/

/-- Scenario A of the spec: an overdue reminder carrying `priority:"medium"`. -/
def scenarioAPayload : Payload :=
  { type := "TODO_REMINDER", reminderType := "overdue", priority := "medium",
    title := "Pay invoice", scheduledTime := 1700000000000,
    agentName := "Billing" }

/-- A daily-summary payload carrying explicit summary counts. -/
def dailyPayload : Payload :=
  { type := "TODO_REMINDER", reminderType := "daily_summary",
    priority := "high",
    summary := some { total := 4, completed := 1, pending := 3, overdue := 2 } }

/-- An overdue payload bundling three sub-items. -/
def batchPayload : Payload :=
  { type := "TODO_REMINDER", reminderType := "overdue",
    items := some
      [ { title := "Pay invoice", scheduledTime := 1700000000000 },
        { title := "Send report" },
        { title := "Call client", content := "Quarterly review call" } ] }

/-- A payload that is not a todo reminder at all. -/
def chatPayload : Payload :=
  { type := "CHAT_MESSAGE", content := "hello" }

/-- A `TODO_REMINDER` payload with an unrecognized `reminderType`. -/
def unknownKindPayload : Payload :=
  { type := "TODO_REMINDER", reminderType := "todo_created",
    title := "New todo" }

/-- A plain normal reminder payload. -/
def normalPayload : Payload :=
  { type := "TODO_REMINDER", reminderType := "normal", title := "Standup",
    content := "Daily standup at 10", todoId := "todo-1" }

/-- A normal payload whose `content` and `message` are empty while `title`
and `description` are not. -/
def titledPayload : Payload :=
  { type := "TODO_REMINDER", reminderType := "normal", title := "Team sync",
    description := "Review the quarterly roadmap" }

/-- A normal payload whose text lives only in `message`. -/
def messageOnlyPayload : Payload :=
  { type := "TODO_REMINDER", reminderType := "normal",
    message := "Water the plants" }

/-- A daily-summary payload with no `summary` object and a single pending
item that has no deadline. -/
def noDeadlinePayload : Payload :=
  { type := "TODO_REMINDER", reminderType := "daily_summary",
    items := some [ { title := "File taxes" } ] }

/-- Recognises the opening literal of a rendered daily-summary item. -/
def isSummaryItemStart (f : Frag) : Bool := f == Frag.lit summaryItemOpen

/-- Recognises the opening literal of the daily-summary truncation line. -/
def isSummaryMoreStart (f : Frag) : Bool := f == Frag.lit summaryMoreOpen

/-- Recognises the opening literal of a rendered overdue item. -/
def isOverdueItemStart (f : Frag) : Bool := f == Frag.lit overdueItemOpen

/-- Recognises the opening literal of the overdue truncation line. -/
def isOverdueMoreStart (f : Frag) : Bool := f == Frag.lit overdueMoreOpen

/-- A short history: three terminal actions with increasing timestamps. -/
def historySample : List HistoryEntry :=
  [ { action := "completed", reminderId := "a", timestamp := 100 },
    { action := "dismissed", reminderId := "b", timestamp := 200 },
    { action := "completed", reminderId := "c", timestamp := 300 } ]

/-- Number of tag-opening characters of a string. -/
def countLt (s : String) : Nat := s.data.count '<'

/-- The header plus body markup of a normal-kind popup, as
`createReminderElement` assembles it for a config that reaches
`renderNormalContent`. -/
def normalPopupFrags (now : Nat) (tzMin : Int)
    (priority title content : String) (time : Nat) (tags : List String) :
    List Frag :=
  headerFrags priority title ++
  [ Frag.lit "<div class=\"todo-reminder-body\">" ] ++
  renderNormalContentFrags now tzMin content time tags ++
  [ Frag.lit "</div>" ]

/-- A daily-summary payload whose single item carries an HTML injection in
its priority field. -/
def injectionPayload : Payload :=
  { type := "TODO_REMINDER", reminderType := "daily_summary",
    items := some [ { title := "Ship release",
                      priority := "\"><script>alert(1)</script>" } ] }

end TodoReminder

namespace TodoReminder

/-! Helper lemmas. -/

theorem orN_zero (a : Nat) : orN a 0 = a := by
  unfold orN; split <;> simp_all

/-- C1: for every inbound reminder of kind Overdue the displayed reminder's
priority is `high` regardless of the inbound priority, and for every inbound
reminder of kind DailySummary the displayed priority is `normal` regardless
of the computed counts. -/
theorem overdue_high_daily_normal (d : Payload) (store : Store) (now : Nat) :
    (d.reminderType = "overdue" →
      ∀ cfg, Effect.render cfg ∈ (handleTodoReminder (some d) store now).1 →
        cfg.priority = "high") ∧
    (d.reminderType = "daily_summary" →
      ∀ cfg, Effect.render cfg ∈ (handleTodoReminder (some d) store now).1 →
        cfg.priority = "normal") := by
  constructor <;> intro h cfg hmem <;>
    by_cases ht : d.type = "TODO_REMINDER" <;>
      simp [handleTodoReminder, displayReminder, h, ht] at hmem <;>
        simp [hmem, overdueConfig, dailySummaryConfig]

/-- Witness for C1 at Scenario A and a concrete daily summary. -/
theorem overdue_high_daily_normal_witness :
    (overdueConfig scenarioAPayload).priority = "high" ∧
    (dailySummaryConfig dailyPayload).priority = "normal" :=
  ⟨(overdue_high_daily_normal scenarioAPayload [] 0).1 rfl
      (overdueConfig scenarioAPayload) (by decide),
   (overdue_high_daily_normal dailyPayload [] 0).2 rfl
      (dailySummaryConfig dailyPayload) (by decide)⟩

/-- C3: every `TODO_REMINDER` payload triggers exactly one `playSound` call,
however many sub-items it bundles. -/
theorem one_sound_per_reminder (d : Payload) (store : Store) (now : Nat)
    (h : d.type = "TODO_REMINDER") :
    ((handleTodoReminder (some d) store now).1.countP Effect.isSound) = 1 := by
  have ht : ¬ d.type ≠ "TODO_REMINDER" := by simp [h]
  simp only [handleTodoReminder, if_neg ht]
  by_cases h1 : d.reminderType = "daily_summary" <;>
    by_cases h2 : d.reminderType = "overdue" <;>
      by_cases h3 : d.reminderType = "normal" <;>
        simp [h1, h2, h3, displayReminder, Effect.isSound,
          List.countP_append, List.countP_cons]

/-- Witness for C3 on a payload bundling three overdue items. -/
theorem one_sound_per_reminder_witness :
    ((handleTodoReminder (some batchPayload) [] 0).1.countP Effect.isSound)
      = 1 :=
  one_sound_per_reminder batchPayload [] 0 (by decide)

/-- C8: a missing payload, or one whose `type` is not `TODO_REMINDER`, is a
complete no-op: no effects and an unchanged `activeReminders` map. -/
theorem non_reminder_noop (store : Store) (now : Nat) :
    handleTodoReminder none store now = ([], store) ∧
    ∀ d : Payload, d.type ≠ "TODO_REMINDER" →
      handleTodoReminder (some d) store now = ([], store) := by
  refine ⟨rfl, fun d hd => ?_⟩
  simp [handleTodoReminder, hd]

/-- Witness for C8 on a chat payload. -/
theorem non_reminder_noop_witness :
    handleTodoReminder none [] 5 = ([], []) ∧
    handleTodoReminder (some chatPayload) [] 5 = ([], []) :=
  ⟨(non_reminder_noop [] 5).1, (non_reminder_noop [] 5).2 chatPayload
    (by decide)⟩

/-- C5 counterexample: a `TODO_REMINDER` payload with an unrecognized
`reminderType` is not wrapped as a minimal Normal reminder — it produces only
a warning and the sound, renders nothing, and stores nothing; and a payload
with an unrecognized discriminant `type` is dropped outright. -/
theorem unknown_kind_not_wrapped :
    handleTodoReminder (some unknownKindPayload) [] 0 =
      ([Effect.warn, Effect.sound "normal"], []) ∧
    ((handleTodoReminder (some unknownKindPayload) [] 0).1.countP
      Effect.isRender) = 0 ∧
    handleTodoReminder (some chatPayload) [] 0 = ([], []) := by
  decide

/-- C5 amended: an unrecognized discriminant type is ignored outright, and an
unrecognized reminder kind yields only a console warning plus the notification
sound — no popup, no fallback reminder, no store change. -/
theorem unknown_kind_warn_only (d : Payload) (store : Store) (now : Nat)
    (ht : d.type = "TODO_REMINDER")
    (h1 : d.reminderType ≠ "daily_summary")
    (h2 : d.reminderType ≠ "overdue")
    (h3 : d.reminderType ≠ "normal") :
    handleTodoReminder (some d) store now =
      ([Effect.warn, Effect.sound (orS d.priority "normal")], store) := by
  simp [handleTodoReminder, ht, h1, h2, h3]

/-- Witness for the amended C5. -/
theorem unknown_kind_warn_only_witness :
    handleTodoReminder (some unknownKindPayload) [] 0 =
      ([Effect.warn, Effect.sound (orS unknownKindPayload.priority "normal")],
        []) :=
  unknown_kind_warn_only unknownKindPayload [] 0 (by decide) (by decide)
    (by decide) (by decide)

/-- C6 counterexample: on a concrete normal reminder the render directive is
emitted before the store insertion, but the audio-trigger is emitted after
the insertion, refuting the claim that both side effects precede it. -/
theorem sound_not_before_insert :
    ((handleTodoReminder (some normalPayload) [] 0).1.findIdx Effect.isRender
      < (handleTodoReminder (some normalPayload) [] 0).1.findIdx
          Effect.isStoreInsert) ∧
    ¬ ((handleTodoReminder (some normalPayload) [] 0).1.findIdx Effect.isSound
      < (handleTodoReminder (some normalPayload) [] 0).1.findIdx
          Effect.isStoreInsert) := by
  decide

/-- C6 amended: for every dispatched reminder the effect order is render,
then store insertion, then the audio-trigger (which is present). -/
theorem render_insert_sound_order (d : Payload) (store : Store) (now : Nat)
    (ht : d.type = "TODO_REMINDER")
    (hk : d.reminderType = "daily_summary" ∨ d.reminderType = "overdue" ∨
      d.reminderType = "normal") :
    ((handleTodoReminder (some d) store now).1.findIdx Effect.isRender <
      (handleTodoReminder (some d) store now).1.findIdx
        Effect.isStoreInsert) ∧
    ((handleTodoReminder (some d) store now).1.findIdx Effect.isStoreInsert <
      (handleTodoReminder (some d) store now).1.findIdx Effect.isSound) ∧
    (handleTodoReminder (some d) store now).1.findIdx Effect.isSound <
      (handleTodoReminder (some d) store now).1.length := by
  rcases hk with h | h | h <;>
    simp [handleTodoReminder, displayReminder, ht, h, List.findIdx_cons,
      Effect.isRender, Effect.isStoreInsert, Effect.isSound]

/-- Witness for the amended C6. -/
theorem render_insert_sound_order_witness :
    ((handleTodoReminder (some normalPayload) [] 7).1.findIdx Effect.isRender
      < (handleTodoReminder (some normalPayload) [] 7).1.findIdx
          Effect.isStoreInsert) ∧
    ((handleTodoReminder (some normalPayload) [] 7).1.findIdx
        Effect.isStoreInsert <
      (handleTodoReminder (some normalPayload) [] 7).1.findIdx
        Effect.isSound) ∧
    (handleTodoReminder (some normalPayload) [] 7).1.findIdx Effect.isSound <
      (handleTodoReminder (some normalPayload) [] 7).1.length :=
  render_insert_sound_order normalPayload [] 7 (by decide)
    (Or.inr (Or.inr (by decide)))

/-- C2 counterexample: a payload whose `content` and `message` are empty but
whose `description` and `title` are not yields an empty normalized `content`
(the code's chain stops at `message`), and its popup is rendered with an
empty body. -/
theorem content_chain_stops_at_message :
    (normalConfig titledPayload).content = "" ∧
    specContentChain titledPayload = "Review the quarterly roadmap" ∧
    Effect.render (normalConfig titledPayload) ∈
      (handleTodoReminder (some titledPayload) [] 0).1 ∧
    renderNormalContentFrags 0 0 (normalConfig titledPayload).content
      (normalConfig titledPayload).time (normalConfig titledPayload).tags
      = [] := by
  decide

/-- C2 amended: the normalized `content` of a normal reminder is the first
non-empty value among content and message only, and the popup body is
non-empty whenever that value is non-empty. -/
theorem content_falls_back_to_message (d : Payload) (now : Nat)
    (tzMin : Int) :
    (normalConfig d).content = orS d.content d.message ∧
    (orS d.content d.message ≠ "" →
      renderNormalContentFrags now tzMin (normalConfig d).content
        (normalConfig d).time (normalConfig d).tags ≠ []) := by
  refine ⟨rfl, fun h => ?_⟩
  simp [renderNormalContentFrags, normalConfig, h]

/-- Witness for the amended C2. -/
theorem content_falls_back_to_message_witness :
    (normalConfig messageOnlyPayload).content =
      orS messageOnlyPayload.content messageOnlyPayload.message ∧
    renderNormalContentFrags 0 0 (normalConfig messageOnlyPayload).content
      (normalConfig messageOnlyPayload).time
      (normalConfig messageOnlyPayload).tags ≠ [] :=
  ⟨(content_falls_back_to_message messageOnlyPayload 0 0).1,
   (content_falls_back_to_message messageOnlyPayload 0 0).2 (by decide)⟩

/-- C4 counterexample: a daily summary whose single item is pending and has
no deadline displays an overdue count of 0, while the claimed derivation
(missing deadline counts as overdue) yields 1. -/
theorem shown_overdue_not_derived :
    shownOverdue (dailySummaryConfig noDeadlinePayload) = 0 ∧
    specOverdueCount 1700000000000 (noDeadlinePayload.items.getD []) = 1 := by
  decide

/-- C4 amended: the displayed overdue count of a daily summary is the
payload's `summary.overdue` value (0 when the summary or the field is
missing) and does not depend on the item list. -/
theorem shown_overdue_from_payload (d : Payload)
    (items2 : Option (List Item)) :
    shownOverdue (dailySummaryConfig d) = (d.summary.getD {}).overdue ∧
    shownOverdue (dailySummaryConfig { d with items := items2 }) =
      shownOverdue (dailySummaryConfig d) := by
  constructor <;> simp [shownOverdue, dailySummaryConfig, orN_zero]

theorem countP_flatMap_of_all_one {α : Type} (p : Frag → Bool)
    (f : α → List Frag) (h : ∀ a, (f a).countP p = 1) (l : List α) :
    (l.flatMap f).countP p = l.length := by
  induction l with
  | nil => simp
  | cons a l ih => simp [List.countP_append, h, ih]; omega

theorem countP_flatMap_of_all_zero {α : Type} (p : Frag → Bool)
    (f : α → List Frag) (h : ∀ a, (f a).countP p = 0) (l : List α) :
    (l.flatMap f).countP p = 0 := by
  induction l with
  | nil => simp
  | cons a l ih => simp [List.countP_append, h, ih]

theorem summaryItem_marker_counts (item : Item) :
    (summaryItemFrags item).countP isSummaryItemStart = 1 ∧
    (summaryItemFrags item).countP isSummaryMoreStart = 0 := by
  constructor <;>
    simp [summaryItemFrags, isSummaryItemStart, isSummaryMoreStart,
      List.countP_cons, summaryItemOpen, summaryMoreOpen]

theorem overdueItem_marker_counts (now : Nat) (tzMin : Int) (item : Item) :
    (overdueItemFrags now tzMin item).countP isOverdueItemStart = 1 ∧
    (overdueItemFrags now tzMin item).countP isOverdueMoreStart = 0 := by
  unfold overdueItemFrags
  constructor <;> split_ifs <;>
    simp [isOverdueItemStart, isOverdueMoreStart, List.countP_cons,
      List.countP_append, overdueItemOpen, overdueMoreOpen]

/-- C10: a daily-summary popup renders at most the first five items, with a
truncation line exactly when the list exceeds five, and an overdue popup
renders at most the first three items, with a truncation line exactly when
the list exceeds three. -/
theorem item_lists_truncated (now : Nat) (tzMin : Int)
    (summary : SummaryCfg) (items : List Item) :
    ((renderDailySummaryFrags summary items).countP isSummaryItemStart
      = min 5 items.length) ∧
    ((renderDailySummaryFrags summary items).countP isSummaryMoreStart
      = if 5 < items.length then 1 else 0) ∧
    ((renderOverdueListFrags now tzMin items).countP isOverdueItemStart
      = min 3 items.length) ∧
    ((renderOverdueListFrags now tzMin items).countP isOverdueMoreStart
      = if 3 < items.length then 1 else 0) := by
  have hsi := fun it => (summaryItem_marker_counts it).1
  have hsm := fun it => (summaryItem_marker_counts it).2
  have hoi := fun it => (overdueItem_marker_counts now tzMin it).1
  have hom := fun it => (overdueItem_marker_counts now tzMin it).2
  have hstats1 : (summaryStatsFrags summary).countP isSummaryItemStart
      = 0 := by
    unfold summaryStatsFrags
    split_ifs <;>
      simp [isSummaryItemStart, List.countP_append, List.countP_cons,
        summaryItemOpen]
  have hstats2 : (summaryStatsFrags summary).countP isSummaryMoreStart
      = 0 := by
    unfold summaryStatsFrags
    split_ifs <;>
      simp [isSummaryMoreStart, List.countP_append, List.countP_cons,
        summaryMoreOpen]
  refine ⟨?_, ?_, ?_, ?_⟩
  · unfold renderDailySummaryFrags summaryItemsSectionFrags
    rw [List.countP_append, hstats1]
    rcases eq_or_ne items [] with hi | hi
    · simp [hi]
    · rw [if_pos hi]
      split_ifs with h5 <;>
        simp [List.countP_append, List.countP_cons, isSummaryItemStart,
          summaryItemOpen, summaryMoreOpen,
          countP_flatMap_of_all_one _ _ hsi, Nat.min_def]
  · unfold renderDailySummaryFrags summaryItemsSectionFrags
    rw [List.countP_append, hstats2]
    rcases eq_or_ne items [] with hi | hi
    · subst hi
      simp
    · rw [if_pos hi]
      split_ifs with h5 <;>
        simp [List.countP_append, List.countP_cons, isSummaryMoreStart,
          summaryItemOpen, summaryMoreOpen,
          countP_flatMap_of_all_zero _ _ hsm, h5]
  · unfold renderOverdueListFrags
    split_ifs with h1 <;>
      simp [List.countP_append, List.countP_cons, isOverdueItemStart,
        overdueItemOpen, overdueMoreOpen,
        countP_flatMap_of_all_one _ _ hoi, Nat.min_def]
  · unfold renderOverdueListFrags
    split_ifs with h1 <;>
      simp [List.countP_append, List.countP_cons, isOverdueMoreStart,
        overdueItemOpen, overdueMoreOpen,
        countP_flatMap_of_all_zero _ _ hom, h1]

theorem historyAppend_length_le (l : List HistoryEntry) (e : HistoryEntry)
    (h : l.length ≤ historyCap) :
    (historyAppend l e).length ≤ historyCap := by
  simp only [historyAppend]
  split
  · simp only [List.length_drop, List.length_mergeSort, List.length_append,
      List.length_cons, List.length_nil]
    omega
  · simp only [List.length_append, List.length_cons, List.length_nil] at *
    omega

theorem foldl_historyAppend_length (es : List HistoryEntry) :
    ∀ l : List HistoryEntry, l.length ≤ historyCap →
      (es.foldl historyAppend l).length ≤ historyCap := by
  induction es with
  | nil => intro l h; simpa using h
  | cons e es ih => intro l h; exact ih _ (historyAppend_length_le l e h)

theorem foldl_historyAppend_window (es : List HistoryEntry) :
    ∀ l : List HistoryEntry,
      (l ++ es).Pairwise (fun a b => a.timestamp < b.timestamp) →
      l.length ≤ historyCap →
      es.foldl historyAppend l =
        (l ++ es).drop (l.length + es.length - historyCap) := by
  induction es with
  | nil =>
    intro l hp hl
    simp [Nat.sub_eq_zero_of_le hl]
  | cons e es ih =>
    intro l hp hl
    have hpe : (l ++ [e] ++ es).Pairwise
        (fun a b => a.timestamp < b.timestamp) := by
      simpa [List.append_assoc] using hp
    have hsub : (l ++ [e]).Sublist (l ++ [e] ++ es) :=
      List.sublist_append_left _ _
    have hple : (l ++ [e]).Pairwise
        (fun a b => (decide (a.timestamp ≤ b.timestamp)) = true) :=
      (hpe.sublist hsub).imp fun hab => by
        simpa using Nat.le_of_lt hab
    have hms : ((l ++ [e]).mergeSort
        fun a b => decide (a.timestamp ≤ b.timestamp)) = l ++ [e] :=
      List.mergeSort_of_sorted hple
    rw [List.foldl_cons]
    have hlist : l ++ [e] ++ es = l ++ e :: es := by
      rw [List.append_assoc, List.singleton_append]
    by_cases hc : historyCap < (l ++ [e]).length
    · have hlen : l.length = historyCap := by
        simp at hc; omega
      have hdropeq : (l ++ [e]).length - historyCap = 1 := by
        simp [hlen]
      have happ : historyAppend l e = (l ++ [e]).drop 1 := by
        simp only [historyAppend, if_pos hc, hms, hdropeq]
      have hlen2 : ((l ++ [e]).drop 1).length ≤ historyCap := by
        simp [hlen]
      have hstep : ((l ++ [e]).drop 1) ++ es = (l ++ [e] ++ es).drop 1 :=
        (List.drop_append_of_le_length (by simp)).symm
      have hih := ih ((l ++ [e]).drop 1)
        (by rw [hstep]; exact hpe.sublist (List.drop_sublist _ _)) hlen2
      have harith :
          1 + (((l ++ [e]).drop 1).length + es.length - historyCap)
            = l.length + (e :: es).length - historyCap := by
        simp only [List.length_drop, List.length_append, List.length_cons,
          List.length_nil, hlen]
        omega
      rw [happ, hih, hstep, List.drop_drop, hlist, harith]
    · have hlen : (l ++ [e]).length ≤ historyCap := Nat.le_of_not_lt hc
      have happ : historyAppend l e = l ++ [e] := by
        simp only [historyAppend, if_neg hc]
      have harith : (l ++ [e]).length + es.length - historyCap
          = l.length + (e :: es).length - historyCap := by
        simp only [List.length_append, List.length_cons, List.length_nil]
        omega
      rw [happ, ih (l ++ [e]) (by rw [hlist]; exact hp) hlen, hlist, harith]

/-- C7: after any sequence of appends the ledger holds at most 1000 entries,
and when the appended entries carry increasing timestamps (the ledger's
insertion order) the retained entries are exactly the most recent ones. -/
theorem history_cap_invariant (es : List HistoryEntry) :
    (historyAppendAll es).length ≤ historyCap ∧
    (es.Pairwise (fun a b => a.timestamp < b.timestamp) →
      historyAppendAll es = es.drop (es.length - historyCap)) := by
  constructor
  · exact foldl_historyAppend_length es [] (by simp [historyCap])
  · intro hp
    have := foldl_historyAppend_window es [] (by simpa using hp)
      (by simp [historyCap])
    simpa using this

/-- Witness for C7 on a three-entry history. -/
theorem history_cap_invariant_witness :
    (historyAppendAll historySample).length ≤ historyCap ∧
    historyAppendAll historySample =
      historySample.drop (historySample.length - historyCap) :=
  ⟨(history_cap_invariant historySample).1,
   (history_cap_invariant historySample).2 (by decide)⟩

theorem clean_append {s t : String}
    (hs : '<' ∉ s.data ∧ '>' ∉ s.data)
    (ht : '<' ∉ t.data ∧ '>' ∉ t.data) :
    '<' ∉ (s ++ t).data ∧ '>' ∉ (s ++ t).data := by
  simp only [String.data_append, List.mem_append, not_or]
  exact ⟨⟨hs.1, ht.1⟩, hs.2, ht.2⟩

theorem escapeChar_clean (c : Char) :
    '<' ∉ (escapeChar c).data ∧ '>' ∉ (escapeChar c).data := by
  unfold escapeChar
  split_ifs with h1 h2 h3
  · decide
  · decide
  · decide
  · constructor <;> intro hmem
    · exact h2 (List.mem_singleton.mp hmem).symm
    · exact h3 (List.mem_singleton.mp hmem).symm

theorem escapeChars_clean (l : List Char) :
    '<' ∉ (escapeChars l).data ∧ '>' ∉ (escapeChars l).data := by
  induction l with
  | nil => decide
  | cons c cs ih => exact clean_append (escapeChar_clean c) ih

theorem escapeHtml_clean (s : String) :
    '<' ∉ (escapeHtml s).data ∧ '>' ∉ (escapeHtml s).data := by
  unfold escapeHtml
  split_ifs
  · decide
  · exact escapeChars_clean s.data

theorem digitChar_lt_ten_clean (m : Nat) (h : m < 10) :
    Nat.digitChar m ≠ '<' ∧ Nat.digitChar m ≠ '>' := by
  interval_cases m <;> decide

theorem toDigitsCore_clean :
    ∀ (fuel n : Nat) (acc : List Char),
      (∀ c ∈ acc, c ≠ '<' ∧ c ≠ '>') →
      ∀ c ∈ Nat.toDigitsCore 10 fuel n acc, c ≠ '<' ∧ c ≠ '>' := by
  intro fuel
  induction fuel with
  | zero =>
    intro n acc h
    simpa [Nat.toDigitsCore] using h
  | succ fuel ih =>
    intro n acc h
    simp only [Nat.toDigitsCore]
    split
    · intro c hc
      rcases List.mem_cons.mp hc with rfl | hc
      · exact digitChar_lt_ten_clean _ (by omega)
      · exact h c hc
    · apply ih
      intro c hc
      rcases List.mem_cons.mp hc with rfl | hc
      · exact digitChar_lt_ten_clean _ (by omega)
      · exact h c hc

theorem natRepr_clean (n : Nat) :
    '<' ∉ (Nat.repr n).data ∧ '>' ∉ (Nat.repr n).data := by
  have h := toDigitsCore_clean (n + 1) n [] (by simp)
  constructor <;> intro hmem
  · exact (h _ hmem).1 rfl
  · exact (h _ hmem).2 rfl

theorem pad2_clean (n : Nat) :
    '<' ∉ (pad2 n).data ∧ '>' ∉ (pad2 n).data := by
  unfold pad2
  split_ifs
  · exact clean_append (by decide) (natRepr_clean n)
  · exact natRepr_clean n

theorem getPriorityIcon_clean (p : String) :
    '<' ∉ (getPriorityIcon p).data ∧ '>' ∉ (getPriorityIcon p).data := by
  unfold getPriorityIcon
  split_ifs <;> decide

theorem formatTime_clean (now : Nat) (tzMin : Int) (t : Nat) :
    '<' ∉ (formatTime now tzMin t).data ∧
    '>' ∉ (formatTime now tzMin t).data := by
  unfold formatTime
  split_ifs <;>
    first
      | decide
      | exact clean_append (natRepr_clean _) (by decide)
      | exact clean_append
          (clean_append (clean_append (by decide) (pad2_clean _))
            (by decide))
          (pad2_clean _)
      | exact clean_append
          (clean_append
            (clean_append
              (clean_append
                (clean_append (clean_append (natRepr_clean _) (by decide))
                  (natRepr_clean _))
                (by decide))
              (pad2_clean _))
            (by decide))
          (pad2_clean _)

theorem countLt_append (s t : String) :
    countLt (s ++ t) = countLt s + countLt t := by
  simp [countLt, String.data_append]

theorem countLt_eq_zero {s : String} (h : '<' ∉ s.data) : countLt s = 0 :=
  List.count_eq_zero.mpr h

theorem countLt_fragsStr (l : List Frag) :
    countLt (fragsStr l) = (l.map fun f => countLt f.str).sum := by
  induction l with
  | nil => rfl
  | cons f fs ih => simp [fragsStr, countLt_append, ih]

theorem fragStr_lit (s : String) : (Frag.lit s).str = s := rfl

theorem fragStr_esc (s : String) : (Frag.esc s).str = escapeHtml s := rfl

theorem fragStr_raw (s : String) : (Frag.raw s).str = s := rfl

theorem countLt_esc (s : String) : countLt (escapeHtml s) = 0 :=
  countLt_eq_zero (escapeHtml_clean s).1

theorem countLt_time_raw (now : Nat) (tzMin : Int) (t : Nat) :
    countLt (formatTime now tzMin t) = 0 :=
  countLt_eq_zero (formatTime_clean now tzMin t).1

theorem countLt_icon_raw (p : String) :
    countLt (getPriorityIcon p) = 0 :=
  countLt_eq_zero (getPriorityIcon_clean p).1

theorem tagBlock_sum (tags : List String) :
    ((tags.flatMap fun tag =>
        [ Frag.lit "<span class=\"todo-tag\">", Frag.esc tag,
          Frag.lit "</span>" ]).map fun f => countLt f.str).sum
      = tags.length * (countLt "<span class=\"todo-tag\">"
          + countLt "</span>") := by
  induction tags with
  | nil => simp
  | cons t ts ih =>
    simp only [List.flatMap_cons, List.map_append, List.sum_append, ih,
      List.map_cons, List.map_nil, List.sum_cons, List.sum_nil,
      fragStr_lit, fragStr_esc, countLt_esc, List.length_cons]
    ring

set_option maxRecDepth 8000 in
/-- C9 counterexample: in a daily-summary popup the item's priority string is
interpolated into the body markup without passing through `escapeHtml`: the
raw payload text appears as an unescaped fragment of the body, and the
flattened body HTML contains the injected `<script>` tag. -/
theorem raw_priority_reaches_body :
    Frag.raw "\"><script>alert(1)</script>" ∈
      bodyFrags 0 0 (dailySummaryConfig injectionPayload) ∧
    "<script>".data.IsInfix
      (fragsStr (bodyFrags 0 0 (dailySummaryConfig injectionPayload))).data := by
  constructor
  · decide
  · decide

/-- C9 (amended): title, content, each tag and the agent name all pass
through `escapeHtml` (they occur in the markup only as escaped fragments);
`escapeHtml` maps missing or empty input to the empty string and its output
can never contain a tag delimiter; consequently, on the normal-reminder
header and body, the number of tag-opening characters of the markup is
independent of the text of those fields.  (Daily-summary bodies are excluded:
an item's priority string reaches them unescaped.) -/
theorem escaped_fields_cannot_open_tags :
    escapeHtml "" = "" ∧
    (∀ s, '<' ∉ (escapeHtml s).data ∧ '>' ∉ (escapeHtml s).data) ∧
    (∀ priority title, Frag.esc title ∈ headerFrags priority title) ∧
    (∀ agentName todoId, agentName ≠ "" →
      Frag.esc agentName ∈ actionsFrags agentName todoId) ∧
    (∀ (now : Nat) (tzMin : Int) (content : String) (time : Nat)
        (tags : List String) (tag : String), tag ∈ tags →
      Frag.esc tag ∈ renderNormalContentFrags now tzMin content time tags) ∧
    (∀ (now : Nat) (tzMin : Int) (priority title title2 content content2 :
        String) (time : Nat) (tags tags2 : List String),
      (content = "" ↔ content2 = "") → tags.length = tags2.length →
      countLt (fragsStr
        (normalPopupFrags now tzMin priority title content time tags)) =
      countLt (fragsStr
        (normalPopupFrags now tzMin priority title2 content2 time tags2))) := by
  refine ⟨rfl, escapeHtml_clean, ?_, ?_, ?_, ?_⟩
  · intro priority title
    simp [headerFrags]
  · intro agentName todoId ha
    simp [actionsFrags, ha]
  · intro now tzMin content time tags tag htag
    have hne : tags ≠ [] := by rintro rfl; simp at htag
    unfold renderNormalContentFrags
    rw [if_pos hne]
    apply List.mem_append_right
    apply List.mem_append_left
    apply List.mem_append_right
    exact List.mem_flatMap.mpr ⟨tag, htag, by simp⟩
  · intro now tzMin priority title title2 content content2 time tags tags2
      hciff htl
    have hts : (tags = []) ↔ (tags2 = []) := by
      rw [← List.length_eq_zero, ← List.length_eq_zero, htl]
    unfold normalPopupFrags headerFrags renderNormalContentFrags
    rw [countLt_fragsStr, countLt_fragsStr]
    rcases eq_or_ne content "" with hc1 | hc1
    · have hc2 : content2 = "" := hciff.mp hc1
      rcases eq_or_ne tags [] with ht1 | ht1
      · have ht2 : tags2 = [] := hts.mp ht1
        simp [hc1, hc2, ht1, ht2, List.map_append, List.sum_append,
          fragStr_lit, fragStr_esc, fragStr_raw, countLt_esc]
      · have ht2 : tags2 ≠ [] := fun h => ht1 (hts.mpr h)
        simp [hc1, hc2, ht1, ht2, List.map_append, List.sum_append,
          fragStr_lit, fragStr_esc, fragStr_raw, countLt_esc, tagBlock_sum,
          htl]
    · have hc2 : content2 ≠ "" := fun h => hc1 (hciff.mpr h)
      rcases eq_or_ne tags [] with ht1 | ht1
      · have ht2 : tags2 = [] := hts.mp ht1
        simp [hc1, hc2, ht1, ht2, List.map_append, List.sum_append,
          fragStr_lit, fragStr_esc, fragStr_raw, countLt_esc]
      · have ht2 : tags2 ≠ [] := fun h => ht1 (hts.mpr h)
        simp [hc1, hc2, ht1, ht2, List.map_append, List.sum_append,
          fragStr_lit, fragStr_esc, fragStr_raw, countLt_esc, tagBlock_sum,
          htl]

/-- Witness for the amended C9. -/
theorem escaped_fields_cannot_open_tags_witness :
    Frag.esc "Billing" ∈ actionsFrags "Billing" "todo-9" ∧
    Frag.esc "urgent" ∈ renderNormalContentFrags 0 0 "call" 0
      ["urgent", "work"] ∧
    countLt (fragsStr (normalPopupFrags 0 0 "high" "Standup"
      "Daily standup at 10" 0 ["a", "b"])) =
    countLt (fragsStr (normalPopupFrags 0 0 "high" "<b>Standup</b>"
      "<img src=x onerror=alert(1)>" 0 ["<i>", "</i>"])) :=
  ⟨(escaped_fields_cannot_open_tags).2.2.2.1 "Billing" "todo-9" (by decide),
   (escaped_fields_cannot_open_tags).2.2.2.2.1 0 0 "call" 0
     ["urgent", "work"] "urgent" (by decide),
   (escaped_fields_cannot_open_tags).2.2.2.2.2 0 0 "high" "Standup"
     "<b>Standup</b>" "Daily standup at 10" "<img src=x onerror=alert(1)>" 0
     ["a", "b"] ["<i>", "</i>"] (by decide) (by decide)⟩

end TodoReminder
